import Mathlib

/-!
The package myhttp: a Getter with per-phase timeouts and scoped body closing

A shallow embedding of `get.go`.  Go pointers (`*Getter`, `*http.Client`,
`*http.Transport`) are addresses into three stores of the `World`; the
network and the response bodies are in `Net`, the part of the state that the
standard library and the callback act on.  Every action that `Get`
and `WrapGet` perform on their collaborators (a GET attempt through the
client, the invocation of the callback, closing a body) is appended to
`World.log`, so that "how often" and "in which order" are statements about
that log.
-/

namespace myhttp

/-! ## Values from the standard library -/

/-- Go's `time.Duration`: a signed count of nanoseconds (an `int64`; no
arithmetic is done on it here, so it is kept as an `Int`). -/
abbrev Duration := Int

/-- Go's `time.Second`. -/
def Second : Duration := 1000000000

/-- Go's `time.Millisecond`. -/
def Millisecond : Duration := 1000000

/-- The constant `defaultTimeout = time.Second * 3` of `get.go`. -/
def defaultTimeout : Duration := Second * 3

/-- Modelled from the spec: the `error` values of Go and the wrapper of
`github.com/pkg/errors`, which is not part of the source.  `base` is any
error made elsewhere (`id` stands for the identity of the value, `msg` for
its `Error()` text); `withStack` is what `errors.WithStack` builds: the
wrapped error together with the recorded call stack. -/
inductive GoError where
  | base (id : Nat) (msg : String)
  | withStack (cause : GoError) (stack : List Nat)
  deriving DecidableEq, Repr

/-- The `Error()` method: the wrapper reports the text of the error it wraps. -/
def GoError.Error : GoError → String
  | .base _ msg => msg
  | .withStack cause _ => cause.Error

/-- The `Cause()` method of the wrapper: the error that was wrapped. -/
def GoError.Cause : GoError → Option GoError
  | .base _ _ => none
  | .withStack cause _ => some cause

/-- Modelled from the spec: `errors.WithStack` of `github.com/pkg/errors`,
which is not part of the source: `nil` stays `nil`, any other error is
annotated with the call stack and otherwise left as it is. -/
def WithStack (err : Option GoError) (stack : List Nat) : Option GoError :=
  match err with
  | none => none
  | some e => some (.withStack e stack)

/-- The error of `net/http` that the test `closes resp body` expects. -/
def errReadOnClosedResBody : GoError :=
  .base 0 "http: read on closed response body"

/-- Go's `io.EOF`. -/
def EOF : GoError := .base 1 "EOF"

/-- Modelled from the spec: the body of an `http.Response`, declared in
`net/http` and not part of the source: an ordered byte stream that is open
until it is closed.  `unread` are the bytes nobody has read yet,
`closeCalls` counts the calls of `Close`, `closeErr` is what the first
`Close` reports. -/
structure Body where
  unread : List Nat
  closed : Bool
  closeCalls : Nat
  closeErr : Option GoError
  deriving DecidableEq, Repr

/-- Modelled from the spec: `Body.Read` with a buffer of `n` bytes (declared
in `net/http`): a read after `Close` yields no bytes and the closed-body
error; otherwise up to `n` unread bytes are consumed. -/
def Body.Read (b : Body) (n : Nat) : (List Nat × Option GoError) × Body :=
  if b.closed then (([], some errReadOnClosedResBody), b)
  else if b.unread = [] then (([], some EOF), b)
  else ((b.unread.take n, none), { b with unread := b.unread.drop n })

/-- Modelled from the spec: `Body.Close` (declared in `net/http`): marks the
stream closed and reads nothing from it; draining is a separate step, as in
the helper `bodyClose` of the tests ("drain the body and then close it"). -/
def Body.Close (b : Body) : Option GoError × Body :=
  (if b.closed then none else b.closeErr,
   { b with closed := true, closeCalls := b.closeCalls + 1 })

/-- An `*http.Response`: the status code and the handle of its body. -/
structure Response where
  StatusCode : Nat
  Body : Nat
  deriving DecidableEq, Repr

/-- What the standard library and the caller act on: the bodies by handle
and the rest of the network and connection-pool state. -/
structure Net where
  bodies : Nat → Body
  state : Nat

/-- A run-time panic: a nil dereference, or a value given to `panic`. -/
inductive Panic where
  | nilDeref
  | value (v : String)
  deriving DecidableEq, Repr

/-- How a Go call ends: it returns, or it panics. -/
inductive Result (α : Type) where
  | returned (a : α)
  | panicked (p : Panic)
  deriving DecidableEq, Repr

/-! ## The data model of `get.go` -/

/-- The fields of `http.Transport` that `New` sets; `DialTimeout` is the
`Timeout` of the `net.Dialer` whose `DialContext` is installed. -/
structure Transport where
  DialTimeout : Duration
  TLSHandshakeTimeout : Duration
  ResponseHeaderTimeout : Duration
  ExpectContinueTimeout : Duration
  deriving DecidableEq, Repr

/-- An `http.Client` as `New` builds it: only `Transport` is set (an address). -/
structure Client where
  Transport : Nat
  deriving DecidableEq, Repr

/-- The struct `Getter` of `get.go`; `client` is an address. -/
structure Getter where
  timeout : Duration
  client : Nat
  deriving DecidableEq, Repr

/-- The actions of `Get` and `WrapGet` on their collaborators. -/
inductive Event where
  | clientGet (client : Nat) (transport : Nat) (url : String)
  | doCall (r : Response)
  | doDone
  | bodyClose (body : Nat)
  deriving DecidableEq, Repr

/-- The program state: the three stores (an address is an index), the
outside world, and the log of actions. -/
structure World where
  transports : List Transport
  clients : List Client
  getters : List Getter
  net : Net
  log : List Event

/-- The callback `do func(r *http.Response) error`: it sees the response,
acts on the outside world, and returns an error or `nil`, or panics. -/
abbrev Callback := Response → Net → Result (Option GoError) × Net

/-- What the source takes from outside: the behaviour of one GET attempt of
`net/http` over a transport with the given settings, and the stack that
`errors.WithStack` records. -/
structure Env where
  roundTrip : Transport → String → Net → (Option Response × Option GoError) × Net
  callers : List Nat

/-! ## The operations of `get.go` -/

/-- The function `New`: the zero duration is replaced by `defaultTimeout`; one
transport is made with the four timeouts set to that duration, one client
around it, and the `Getter` holding that client (its `timeout` field is not
mentioned in the composite literal). -/
def New (to_ : Duration) (w : World) : Nat × World :=
  let to_ := if to_ = 0 then defaultTimeout else to_
  let tp : Transport :=
    { DialTimeout := to_
      TLSHandshakeTimeout := to_
      ResponseHeaderTimeout := to_
      ExpectContinueTimeout := to_ }
  let c : Client := { Transport := w.transports.length }
  let g : Getter := { timeout := 0, client := w.clients.length }
  (w.getters.length,
   { w with
     transports := w.transports ++ [tp]
     clients := w.clients ++ [c]
     getters := w.getters ++ [g] })

/-- The method `(*http.Client).Get` seen from `get.go`: one GET attempt over
the client's transport; a nil client or transport is a nil dereference. -/
def clientGet (env : Env) (c : Nat) (url : String) (w : World) :
    Result (Option Response × Option GoError) × World :=
  match w.clients[c]? with
  | none => (.panicked .nilDeref, w)
  | some cv =>
    match w.transports[cv.Transport]? with
    | none => (.panicked .nilDeref, w)
    | some tv =>
      let out := env.roundTrip tv url w.net
      (.returned out.1,
       { w with net := out.2, log := w.log ++ [.clientGet c cv.Transport url] })

/-- The method `Get`: `return g.client.Get(url)`. -/
def Get (env : Env) (g : Nat) (url : String) (w : World) :
    Result (Option Response × Option GoError) × World :=
  match w.getters[g]? with
  | none => (.panicked .nilDeref, w)
  | some gv => clientGet env gv.client url w

/-- The call `r.Body.Close()` made by `WrapGet`; what `Close` returns is
dropped, as the deferred call drops it. -/
def closeBody (body : Nat) (w : World) : World :=
  { w with
    net := { w.net with bodies := Function.update w.net.bodies body (w.net.bodies body).Close.2 }
    log := w.log ++ [.bodyClose body] }

/-- The call `do(r)` made by `WrapGet`. -/
def callDo (f : Callback) (r : Response) (w : World) : Result (Option GoError) × World :=
  let out := f r w.net
  (out.1, { w with net := out.2, log := w.log ++ [.doCall r, .doDone] })

/-- The method `WrapGet`: fetch; on an error return it wrapped by `WithStack`;
otherwise register `r.Body.Close()` (a nil `r` panics there), run `do(r)`, and
on the way out, whether `do` returned or panicked, run the deferred `Close`. -/
def WrapGet (env : Env) (g : Nat) (url : String) (f : Callback) (w : World) :
    Result (Option GoError) × World :=
  match Get env g url w with
  | (.panicked p, w1) => (.panicked p, w1)
  | (.returned (_, some err), w1) => (.returned (WithStack (some err) env.callers), w1)
  | (.returned (none, none), w1) => (.panicked .nilDeref, w1)
  | (.returned (some r, none), w1) =>
    let out := callDo f r w1
    (out.1, closeBody r.Body out.2)

/-- One call on a Getter. -/
inductive Call where
  | get (url : String)
  | wrapGet (url : String) (f : Callback)

/-- The state after one call on the Getter at address `g`. -/
def runCall (env : Env) (g : Nat) (c : Call) (w : World) : World :=
  match c with
  | .get url => (Get env g url w).2
  | .wrapGet url f => (WrapGet env g url f w).2

/-- The state after a sequence of calls on the Getter at address `g`. -/
def runCalls (env : Env) (g : Nat) (cs : List Call) (w : World) : World :=
  cs.foldl (fun w c => runCall env g c w) w

/-- The transport behind the Getter at address `g`: through its client to
the client's transport. -/
def World.transportOf (w : World) (g : Nat) : Option Transport :=
  match w.getters[g]? with
  | none => none
  | some gv =>
    match w.clients[gv.client]? with
    | none => none
    | some cv => w.transports[cv.Transport]?

/-- The duration the spec calls effective: three seconds for the zero
duration, the given duration otherwise. -/
def effectiveTimeout (d : Duration) : Duration :=
  if d = 0 then 3 * Second else d

/-- Whether an event is a GET attempt through a client. -/
def Event.isClientGet : Event → Bool
  | .clientGet _ _ _ => true
  | _ => false

/-! ## Concrete servers and callbacks, after `get_test.go` -/

/-- The first bytes of `code200Response`. -/
def code200Response : List Nat := [60, 120, 109, 108, 62]

/-- A network in which no body is open. -/
def quietNet : Net :=
  { bodies := fun _ => { unread := [], closed := true, closeCalls := 0, closeErr := none }
    state := 0 }

/-- A state with empty stores. -/
def emptyWorld : World :=
  { transports := [], clients := [], getters := [], net := quietNet, log := [] }

/-- The handler `code200`: every attempt succeeds with status 200 and an
open body, under handle 7, holding `code200Response`. -/
def server200 : Env :=
  { roundTrip := fun _ _ net =>
      ((some { StatusCode := 200, Body := 7 }, none),
       { bodies := Function.update net.bodies 7
           { unread := code200Response, closed := false, closeCalls := 0, closeErr := none }
         state := net.state + 1 })
    callers := [59, 62] }

/-- As `server200`, with a body whose `Close` reports an error. -/
def server200CloseErr : Env :=
  { roundTrip := fun _ _ net =>
      ((some { StatusCode := 200, Body := 7 }, none),
       { bodies := Function.update net.bodies 7
           { unread := code200Response, closed := false, closeCalls := 0
             closeErr := some (.base 5 "close failed") }
         state := net.state + 1 })
    callers := [59, 62] }

/-- The error of an attempt that waited too long for the response headers. -/
def errHeaderTimeout : GoError :=
  .base 2 "net/http: timeout awaiting response headers"

/-- The handler `delay` seen through a short timeout: every attempt fails. -/
def serverDelay : Env :=
  { roundTrip := fun _ _ net => ((none, some errHeaderTimeout), net)
    callers := [59, 62] }

/-- A callback that reads nothing and returns `nil`. -/
def doNothing : Callback := fun _ net => (.returned none, net)

/-- The error `rerr` of the test `bad do func`. -/
def rerr : GoError := .base 9 "returned err"

/-- The callback of the test `bad do func`: it returns `rerr`. -/
def doFail : Callback := fun _ net => (.returned (some rerr), net)

/-- A callback that leaves a mark on the outside world (it adds 100 to the
network state) and then returns `rerr`. -/
def doMarkFail : Callback := fun _ net =>
  (.returned (some rerr), { net with state := net.state + 100 })

/-- A callback that panics. -/
def doPanic : Callback := fun _ net => (.panicked (.value "boom"), net)

/-- The callback of the test `good response`: it drains the body (the
helper `body`) and returns `nil`. -/
def doDrain : Callback := fun r net =>
  (.returned none,
   { net with
     bodies := Function.update net.bodies r.Body
       ((net.bodies r.Body).Read (net.bodies r.Body).unread.length).2 })

/-- The url a call asks for. -/
def Call.url : Call → String
  | .get url => url
  | .wrapGet url _ => url

/-- Whether an event is an invocation of the callback. -/
def Event.isDoCall : Event → Bool
  | .doCall _ => true
  | _ => false

/-- The state in which the tests call the Getter: `New(timeout)` with the
test constant `timeout = 0`, from empty stores; the Getter is at address 0. -/
def testWorld : World := (New 0 emptyWorld).2

/-! ## Lemmas on the operations -/

theorem New_transportOf (d : Duration) (w : World) :
    (New d w).2.transportOf (New d w).1 =
      some { DialTimeout := effectiveTimeout d
             TLSHandshakeTimeout := effectiveTimeout d
             ResponseHeaderTimeout := effectiveTimeout d
             ExpectContinueTimeout := effectiveTimeout d } := by
  simp [New, World.transportOf, effectiveTimeout, defaultTimeout, mul_comm]

theorem New_getter (d : Duration) (w : World) :
    (New d w).2.getters[(New d w).1]? = some { timeout := 0, client := w.clients.length } := by
  simp [New]

/-- A Getter whose pointers are all valid makes one attempt and hands back
what the attempt gave. -/
theorem Get_of_resolved (env : Env) (g : Nat) (url : String) (w : World)
    (gv : Getter) (cv : Client) (tv : Transport)
    (hg : w.getters[g]? = some gv) (hc : w.clients[gv.client]? = some cv)
    (ht : w.transports[cv.Transport]? = some tv) :
    Get env g url w =
      (.returned (env.roundTrip tv url w.net).1,
       { w with
         net := (env.roundTrip tv url w.net).2
         log := w.log ++ [.clientGet gv.client cv.Transport url] }) := by
  simp [Get, clientGet, hg, hc, ht]

/-- When `Get` returns, the pointers of the Getter were all valid. -/
theorem Get_returned_resolved (env : Env) (g : Nat) (url : String) (w : World)
    (a : Option Response × Option GoError) (h : (Get env g url w).1 = .returned a) :
    ∃ gv cv tv, w.getters[g]? = some gv ∧ w.clients[gv.client]? = some cv ∧
      w.transports[cv.Transport]? = some tv := by
  unfold Get at h
  cases hg : w.getters[g]? with
  | none => simp [hg] at h
  | some gv =>
    simp only [hg] at h
    unfold clientGet at h
    cases hc : w.clients[gv.client]? with
    | none => simp [hc] at h
    | some cv =>
      simp only [hc] at h
      cases ht : w.transports[cv.Transport]? with
      | none => simp [ht] at h
      | some tv => exact ⟨gv, cv, tv, rfl, hc, ht⟩

/-- The branch of `WrapGet` after a fetch that succeeded with a response. -/
theorem WrapGet_of_success (env : Env) (g : Nat) (url : String) (f : Callback) (w : World)
    (r : Response) (h : (Get env g url w).1 = .returned (some r, none)) :
    WrapGet env g url f w =
      ((f r (Get env g url w).2.net).1,
       closeBody r.Body (callDo f r (Get env g url w).2).2) := by
  unfold WrapGet
  rcases hG : Get env g url w with ⟨res, w1⟩
  rw [hG] at h
  simp only at h
  subst h
  rfl

/-- The branch of `WrapGet` after a fetch that reported an error. -/
theorem WrapGet_of_error (env : Env) (g : Nat) (url : String) (f : Callback) (w : World)
    (r : Option Response) (e : GoError) (h : (Get env g url w).1 = .returned (r, some e)) :
    WrapGet env g url f w =
      (.returned (some (.withStack e env.callers)), (Get env g url w).2) := by
  unfold WrapGet
  rcases hG : Get env g url w with ⟨res, w1⟩
  rw [hG] at h
  simp only at h
  subst h
  cases r <;> rfl

/-- `Get` writes to none of the three stores. -/
theorem Get_stores (env : Env) (g : Nat) (url : String) (w : World) :
    (Get env g url w).2.transports = w.transports ∧
    (Get env g url w).2.clients = w.clients ∧
    (Get env g url w).2.getters = w.getters := by
  unfold Get
  cases w.getters[g]? with
  | none => exact ⟨rfl, rfl, rfl⟩
  | some gv =>
    simp only
    unfold clientGet
    cases w.clients[gv.client]? with
    | none => exact ⟨rfl, rfl, rfl⟩
    | some cv =>
      simp only
      cases w.transports[cv.Transport]? with
      | none => exact ⟨rfl, rfl, rfl⟩
      | some tv => exact ⟨rfl, rfl, rfl⟩

/-- `WrapGet` writes to none of the three stores. -/
theorem WrapGet_stores (env : Env) (g : Nat) (url : String) (f : Callback) (w : World) :
    (WrapGet env g url f w).2.transports = w.transports ∧
    (WrapGet env g url f w).2.clients = w.clients ∧
    (WrapGet env g url f w).2.getters = w.getters := by
  have hs := Get_stores env g url w
  unfold WrapGet
  rcases hG : Get env g url w with ⟨res, w1⟩
  rw [hG] at hs
  rcases res with ⟨ro, eo⟩ | p
  · cases ro <;> cases eo <;> exact hs
  · exact hs

/-- One call on a Getter with valid pointers: the stores stay as they are,
and the log grows by one GET attempt through the Getter's client and that
client's transport, followed by events that are not GET attempts. -/
theorem runCall_frame (env : Env) (g : Nat) (c : Call) (w : World)
    (gv : Getter) (cv : Client) (tv : Transport)
    (hg : w.getters[g]? = some gv) (hc : w.clients[gv.client]? = some cv)
    (ht : w.transports[cv.Transport]? = some tv) :
    (runCall env g c w).transports = w.transports ∧
    (runCall env g c w).clients = w.clients ∧
    (runCall env g c w).getters = w.getters ∧
    ∃ evs, (runCall env g c w).log =
        w.log ++ (.clientGet gv.client cv.Transport c.url :: evs) ∧
      evs.filter Event.isClientGet = [] := by
  cases c with
  | get url =>
    refine ⟨(Get_stores env g url w).1, (Get_stores env g url w).2.1,
      (Get_stores env g url w).2.2, [], ?_, rfl⟩
    simp [runCall, Call.url, Get_of_resolved env g url w gv cv tv hg hc ht]
  | wrapGet url f =>
    refine ⟨(WrapGet_stores env g url f w).1, (WrapGet_stores env g url f w).2.1,
      (WrapGet_stores env g url f w).2.2, ?_⟩
    have hG := Get_of_resolved env g url w gv cv tv hg hc ht
    rcases hrt : env.roundTrip tv url w.net with ⟨⟨ro, eo⟩, net1⟩
    rw [hrt] at hG
    cases eo with
    | some e =>
      refine ⟨[], ?_, rfl⟩
      simp [runCall, Call.url, WrapGet_of_error env g url f w ro e (by rw [hG]), hG]
    | none =>
      cases ro with
      | none =>
        refine ⟨[], ?_, rfl⟩
        simp [runCall, Call.url, WrapGet, hG]
      | some r =>
        refine ⟨[.doCall r, .doDone, .bodyClose r.Body], ?_, rfl⟩
        simp [runCall, Call.url, WrapGet_of_success env g url f w r (by rw [hG]), hG,
          closeBody, callDo]

/-- A sequence of calls on a Getter with valid pointers: the stores stay as
they are, and the GET attempts in the log are one per call, in the order of
the calls, each through the Getter's client and that client's transport. -/
theorem runCalls_frame (env : Env) (g : Nat) (cs : List Call) :
    ∀ (w : World) (gv : Getter) (cv : Client) (tv : Transport),
    w.getters[g]? = some gv → w.clients[gv.client]? = some cv →
    w.transports[cv.Transport]? = some tv →
    (runCalls env g cs w).transports = w.transports ∧
    (runCalls env g cs w).clients = w.clients ∧
    (runCalls env g cs w).getters = w.getters ∧
    ∃ evs, (runCalls env g cs w).log = w.log ++ evs ∧
      evs.filter Event.isClientGet =
        cs.map (fun c => Event.clientGet gv.client cv.Transport c.url) := by
  induction cs with
  | nil =>
    intro w gv cv tv _ _ _
    exact ⟨rfl, rfl, rfl, [], by simp [runCalls], rfl⟩
  | cons c cs ih =>
    intro w gv cv tv hg hc ht
    obtain ⟨h1, h2, h3, evs1, hlog1, hf1⟩ := runCall_frame env g c w gv cv tv hg hc ht
    have hg1 : (runCall env g c w).getters[g]? = some gv := by rw [h3]; exact hg
    have hc1 : (runCall env g c w).clients[gv.client]? = some cv := by rw [h2]; exact hc
    have ht1 : (runCall env g c w).transports[cv.Transport]? = some tv := by rw [h1]; exact ht
    obtain ⟨k1, k2, k3, evs2, hlog2, hf2⟩ := ih (runCall env g c w) gv cv tv hg1 hc1 ht1
    have hstep : runCalls env g (c :: cs) w = runCalls env g cs (runCall env g c w) := rfl
    rw [hstep]
    refine ⟨k1.trans h1, k2.trans h2, k3.trans h3,
      (.clientGet gv.client cv.Transport c.url :: evs1) ++ evs2, ?_, ?_⟩
    · rw [hlog2, hlog1, List.append_assoc]
    · simp [List.filter_cons, Event.isClientGet, hf1, hf2]

/-- After `New` the pointers of the new Getter are all valid. -/
theorem New_resolved (d : Duration) (w : World) :
    (New d w).2.getters[(New d w).1]? = some { timeout := 0, client := w.clients.length } ∧
    (New d w).2.clients[w.clients.length]? = some { Transport := w.transports.length } ∧
    (New d w).2.transports[w.transports.length]? =
      some { DialTimeout := effectiveTimeout d
             TLSHandshakeTimeout := effectiveTimeout d
             ResponseHeaderTimeout := effectiveTimeout d
             ExpectContinueTimeout := effectiveTimeout d } := by
  simp [New, effectiveTimeout, defaultTimeout, mul_comm]

/-- The state `WrapGet` leaves after a fetch that succeeded with a response:
the body of the response is the one the callback left, closed once more. -/
theorem WrapGet_success_state (env : Env) (g : Nat) (url : String) (f : Callback) (w : World)
    (r : Response) (h : (Get env g url w).1 = .returned (some r, none)) :
    (WrapGet env g url f w).2.log =
      (Get env g url w).2.log ++ [.doCall r, .doDone, .bodyClose r.Body] ∧
    (WrapGet env g url f w).2.net.bodies r.Body =
      ((f r (Get env g url w).2.net).2.bodies r.Body).Close.2 ∧
    (∀ b, b ≠ r.Body →
      (WrapGet env g url f w).2.net.bodies b = (f r (Get env g url w).2.net).2.bodies b) ∧
    (WrapGet env g url f w).2.net.state = (f r (Get env g url w).2.net).2.state := by
  rw [WrapGet_of_success env g url f w r h]
  refine ⟨?_, ?_, ?_, ?_⟩
  · simp [closeBody, callDo]
  · simp [closeBody, callDo]
  · intro b hb
    simp [closeBody, callDo, Function.update_noteq hb]
  · simp [closeBody, callDo]

/-- The log of `Get` when it returns: one GET attempt is added. -/
theorem Get_returned_log (env : Env) (g : Nat) (url : String) (w : World)
    (a : Option Response × Option GoError) (h : (Get env g url w).1 = .returned a) :
    ∃ c t, (Get env g url w).2.log = w.log ++ [.clientGet c t url] := by
  obtain ⟨gv, cv, tv, hg, hc, ht⟩ := Get_returned_resolved env g url w a h
  exact ⟨gv.client, cv.Transport, by rw [Get_of_resolved env g url w gv cv tv hg hc ht]⟩

/-! ## The claims -/

/-- C1: when the fetch of `WrapGet` succeeds with response `r`, the callback
is run on the state the fetch left (the body untouched by `WrapGet`), and
the actions of the whole call are, in this order, the GET attempt, the
invocation of the callback, its end, and one `Close` of the body of `r`;
`WrapGet` then ends the way the callback ended (a return of `nil` or of an
error, or a panic).  The body of `r` is the one the callback left with one
more `Close` applied: it is closed, and every later read of it gives no
bytes and the closed-body error. -/
theorem WrapGet_closes_body_once_after_do (env : Env) (g : Nat) (url : String)
    (f : Callback) (w : World) (r : Response)
    (hget : (Get env g url w).1 = .returned (some r, none)) :
    (WrapGet env g url f w).1 = (f r (Get env g url w).2.net).1 ∧
    (∃ c t, (WrapGet env g url f w).2.log =
      w.log ++ [.clientGet c t url, .doCall r, .doDone, .bodyClose r.Body]) ∧
    (WrapGet env g url f w).2.net.bodies r.Body =
      ((f r (Get env g url w).2.net).2.bodies r.Body).Close.2 ∧
    ((WrapGet env g url f w).2.net.bodies r.Body).closeCalls =
      ((f r (Get env g url w).2.net).2.bodies r.Body).closeCalls + 1 ∧
    ((WrapGet env g url f w).2.net.bodies r.Body).closed = true ∧
    ∀ n, (((WrapGet env g url f w).2.net.bodies r.Body).Read n).1 =
      ([], some errReadOnClosedResBody) := by
  obtain ⟨hlog, hbody, -, -⟩ := WrapGet_success_state env g url f w r hget
  obtain ⟨c, t, hc⟩ := Get_returned_log env g url w _ hget
  refine ⟨?_, ⟨c, t, ?_⟩, hbody, ?_, ?_, ?_⟩
  · rw [WrapGet_of_success env g url f w r hget]
  · rw [hlog, hc]; simp
  · rw [hbody]; rfl
  · rw [hbody]; rfl
  · intro n
    rw [hbody]
    simp [Body.Read, Body.Close]

/-- C1 at the test server with a callback that panics: the panic leaves
`WrapGet`, and the body is closed once, after the callback. -/
theorem WrapGet_closes_body_once_after_do_witness :
    (Get server200 0 "http://ok" testWorld).1 =
        .returned (some { StatusCode := 200, Body := 7 }, none) ∧
    (WrapGet server200 0 "http://ok" doPanic testWorld).1 = .panicked (.value "boom") ∧
    ((WrapGet server200 0 "http://ok" doPanic testWorld).2.net.bodies 7).closeCalls = 1 ∧
    ((WrapGet server200 0 "http://ok" doPanic testWorld).2.net.bodies 7).closed = true ∧
    (((WrapGet server200 0 "http://ok" doPanic testWorld).2.net.bodies 7).Read 1024).1 =
      ([], some errReadOnClosedResBody) :=
  have h := WrapGet_closes_body_once_after_do server200 0 "http://ok" doPanic testWorld
    { StatusCode := 200, Body := 7 } rfl
  ⟨rfl, h.1, h.2.2.2.1, h.2.2.2.2.1, h.2.2.2.2.2 1024⟩

/-- C2: when the fetch of `WrapGet` succeeds with response `r`, the callback
is invoked exactly once, with `r`, on the state the fetch left: the log
holds one `doCall`, with `r`, and the outside world after `WrapGet` is the
one that a single run of the callback on that state produced (its network
state, and every body but the body of `r`, which has one more `Close`
applied).  `WrapGet` returns what that run returned: `nil` for `nil`, and
the very error value for an error. -/
theorem WrapGet_returns_what_do_returned (env : Env) (g : Nat) (url : String)
    (f : Callback) (w : World) (r : Response)
    (hget : (Get env g url w).1 = .returned (some r, none)) :
    (WrapGet env g url f w).1 = (f r (Get env g url w).2.net).1 ∧
    ((f r (Get env g url w).2.net).1 = .returned none →
      (WrapGet env g url f w).1 = .returned none) ∧
    (∀ E, (f r (Get env g url w).2.net).1 = .returned (some E) →
      (WrapGet env g url f w).1 = .returned (some E)) ∧
    (∃ evs, (WrapGet env g url f w).2.log = w.log ++ evs ∧
      evs.filter Event.isDoCall = [.doCall r]) ∧
    (WrapGet env g url f w).2.net.state = (f r (Get env g url w).2.net).2.state ∧
    (∀ b, b ≠ r.Body →
      (WrapGet env g url f w).2.net.bodies b = (f r (Get env g url w).2.net).2.bodies b) ∧
    (WrapGet env g url f w).2.net.bodies r.Body =
      ((f r (Get env g url w).2.net).2.bodies r.Body).Close.2 := by
  have hres : (WrapGet env g url f w).1 = (f r (Get env g url w).2.net).1 := by
    rw [WrapGet_of_success env g url f w r hget]
  obtain ⟨hlog, hbody, hrest, hstate⟩ := WrapGet_success_state env g url f w r hget
  obtain ⟨c, t, hc⟩ := Get_returned_log env g url w _ hget
  refine ⟨hres, fun h => hres.trans h, fun E h => hres.trans h,
    ⟨[.clientGet c t url, .doCall r, .doDone, .bodyClose r.Body], ?_, ?_⟩,
    hstate, hrest, hbody⟩
  · rw [hlog, hc]; simp
  · simp [List.filter_cons, Event.isDoCall]

/-- C2 at the test `bad do func`, with a callback that also leaves a mark:
`WrapGet` returns `rerr` itself, and the mark is there once (the attempt
left the network state at 1, the callback adds 100). -/
theorem WrapGet_returns_what_do_returned_witness :
    (Get server200 0 "http://ok" testWorld).1 =
        .returned (some { StatusCode := 200, Body := 7 }, none) ∧
    (Get server200 0 "http://ok" testWorld).2.net.state = 1 ∧
    (WrapGet server200 0 "http://ok" doMarkFail testWorld).1 = .returned (some rerr) ∧
    (WrapGet server200 0 "http://ok" doMarkFail testWorld).2.net.state = 101 :=
  have h := WrapGet_returns_what_do_returned server200 0 "http://ok" doMarkFail testWorld
    { StatusCode := 200, Body := 7 } rfl
  ⟨rfl, rfl, h.2.2.1 rerr rfl, h.2.2.2.2.1⟩

/-- C3: when the fetch of `WrapGet` fails with error `e`, `WrapGet` returns
at once: the state is the one the fetch left (the log holds the GET attempt
and nothing after it, so the callback was not invoked and no body was
closed), and the error returned is `e` under one stack annotation, whose
cause is `e` and whose text is the text of `e`. -/
theorem WrapGet_fetch_error_wrapped (env : Env) (g : Nat) (url : String)
    (f : Callback) (w : World) (ro : Option Response) (e : GoError)
    (hget : (Get env g url w).1 = .returned (ro, some e)) :
    (WrapGet env g url f w).1 = .returned (some (.withStack e env.callers)) ∧
    (GoError.withStack e env.callers).Cause = some e ∧
    (GoError.withStack e env.callers).Error = e.Error ∧
    (WrapGet env g url f w).2 = (Get env g url w).2 ∧
    ∃ c t, (WrapGet env g url f w).2.log = w.log ++ [.clientGet c t url] := by
  have hw := WrapGet_of_error env g url f w ro e hget
  obtain ⟨c, t, hc⟩ := Get_returned_log env g url w _ hget
  exact ⟨by rw [hw], rfl, rfl, by rw [hw], c, t, by rw [hw]; exact hc⟩

/-- C3 at the test `delaying response`: the timeout error comes back wrapped,
with its text, and the callback did not run. -/
theorem WrapGet_fetch_error_wrapped_witness :
    (Get serverDelay 0 "http://slow" testWorld).1 = .returned (none, some errHeaderTimeout) ∧
    (WrapGet serverDelay 0 "http://slow" doPanic testWorld).1 =
      .returned (some (.withStack errHeaderTimeout [59, 62])) ∧
    (WrapGet serverDelay 0 "http://slow" doPanic testWorld).2 =
      (Get serverDelay 0 "http://slow" testWorld).2 :=
  have h := WrapGet_fetch_error_wrapped serverDelay 0 "http://slow" doPanic testWorld
    none errHeaderTimeout rfl
  ⟨rfl, h.1, h.2.2.2.1⟩

/-- C4: for every duration, negative ones included, the transport behind the
Getter that `New` returns has its dial, TLS handshake, response-header and
expect-continue timeouts all equal to the effective duration (three seconds
for zero, the given duration otherwise); `New(0)` and `New(3s)` give the
same four settings. -/
theorem New_timeouts_effective (d : Duration) (w : World) :
    (New d w).2.transportOf (New d w).1 =
      some { DialTimeout := effectiveTimeout d
             TLSHandshakeTimeout := effectiveTimeout d
             ResponseHeaderTimeout := effectiveTimeout d
             ExpectContinueTimeout := effectiveTimeout d } ∧
    effectiveTimeout 0 = 3 * Second ∧
    effectiveTimeout (-Millisecond) = -Millisecond ∧
    (New 0 w).2.transportOf (New 0 w).1 =
      (New (3 * Second) w).2.transportOf (New (3 * Second) w).1 := by
  refine ⟨New_transportOf d w, by decide, by decide, ?_⟩
  rw [New_transportOf, New_transportOf]
  rfl

/-- C5, as the code has it: when the fetch of `WrapGet` succeeds with
response `r`, the body of `r` is closed when `WrapGet` returns, and `WrapGet`
has read nothing from it: the bytes the callback left unread are unread
still. -/
theorem WrapGet_closes_without_reading (env : Env) (g : Nat) (url : String)
    (f : Callback) (w : World) (r : Response)
    (hget : (Get env g url w).1 = .returned (some r, none)) :
    ((WrapGet env g url f w).2.net.bodies r.Body).closed = true ∧
    ((WrapGet env g url f w).2.net.bodies r.Body).unread =
      ((f r (Get env g url w).2.net).2.bodies r.Body).unread := by
  obtain ⟨-, hbody, -, -⟩ := WrapGet_success_state env g url f w r hget
  rw [hbody]
  exact ⟨rfl, rfl⟩

/-- C5, as the code has it, at the test `good response`: the callback drains
the body, and nothing is left unread after `WrapGet`. -/
theorem WrapGet_closes_without_reading_witness :
    (Get server200 0 "http://ok" testWorld).1 =
        .returned (some { StatusCode := 200, Body := 7 }, none) ∧
    ((WrapGet server200 0 "http://ok" doDrain testWorld).2.net.bodies 7).closed = true ∧
    ((WrapGet server200 0 "http://ok" doDrain testWorld).2.net.bodies 7).unread = [] :=
  have h := WrapGet_closes_without_reading server200 0 "http://ok" doDrain testWorld
    { StatusCode := 200, Body := 7 } rfl
  ⟨rfl, h.1, h.2⟩

/-- C5 fails for a callback that reads nothing: the fetch succeeds, `WrapGet`
returns `nil` with the body closed, and all the bytes of the body are
unread. -/
theorem WrapGet_leaves_body_undrained :
    (Get server200 0 "http://ok" testWorld).1 =
        .returned (some { StatusCode := 200, Body := 7 }, none) ∧
    (WrapGet server200 0 "http://ok" doNothing testWorld).1 = .returned none ∧
    ((WrapGet server200 0 "http://ok" doNothing testWorld).2.net.bodies 7).closed = true ∧
    ((WrapGet server200 0 "http://ok" doNothing testWorld).2.net.bodies 7).unread =
      [60, 120, 109, 108, 62] ∧
    ((WrapGet server200 0 "http://ok" doNothing testWorld).2.net.bodies 7).unread ≠ [] := by
  refine ⟨rfl, rfl, rfl, rfl, ?_⟩
  decide

/-- C6, as the code has it: `WrapGet` returns `nil` exactly when the fetch
reported no error (and gave a response) and the callback returned `nil`; a
fetch error comes back wrapped by `WithStack`, an error of the callback comes
back as it is, and `Get` returns the result of the client's attempt
unchanged.  What closing the body reports has no part in the result. -/
theorem WrapGet_nil_iff_fetch_and_do_nil (env : Env) (g : Nat) (url : String)
    (f : Callback) (w : World) :
    ((WrapGet env g url f w).1 = .returned none ↔
      ∃ r, (Get env g url w).1 = .returned (some r, none) ∧
        (f r (Get env g url w).2.net).1 = .returned none) ∧
    (∀ ro e, (Get env g url w).1 = .returned (ro, some e) →
      (WrapGet env g url f w).1 = .returned (some (.withStack e env.callers))) ∧
    (∀ r E, (Get env g url w).1 = .returned (some r, none) →
      (f r (Get env g url w).2.net).1 = .returned (some E) →
      (WrapGet env g url f w).1 = .returned (some E)) ∧
    (∀ gv cv tv, w.getters[g]? = some gv → w.clients[gv.client]? = some cv →
      w.transports[cv.Transport]? = some tv →
      (Get env g url w).1 = .returned (env.roundTrip tv url w.net).1) := by
  refine ⟨⟨?_, ?_⟩, ?_, ?_, ?_⟩
  · intro h
    rcases hres : (Get env g url w).1 with ⟨ro, eo⟩ | p
    · cases eo with
      | some e =>
        rw [WrapGet_of_error env g url f w ro e hres] at h
        simp at h
      | none =>
        cases ro with
        | some r =>
          refine ⟨r, rfl, ?_⟩
          rw [WrapGet_of_success env g url f w r hres] at h
          exact h
        | none =>
          exfalso
          unfold WrapGet at h
          rcases hG : Get env g url w with ⟨res, w1⟩
          rw [hG] at h hres
          simp only at hres
          subst hres
          simp at h
    · exfalso
      unfold WrapGet at h
      rcases hG : Get env g url w with ⟨res, w1⟩
      rw [hG] at h hres
      simp only at hres
      subst hres
      simp at h
  · rintro ⟨r, hget, hdo⟩
    rw [WrapGet_of_success env g url f w r hget]
    exact hdo
  · intro ro e hget
    rw [WrapGet_of_error env g url f w ro e hget]
  · intro r E hget hdo
    rw [WrapGet_of_success env g url f w r hget]
    exact hdo
  · intro gv cv tv hg hc ht
    rw [Get_of_resolved env g url w gv cv tv hg hc ht]

/-- C6, as the code has it, at the test `bad do func`: the error of the
callback is what `WrapGet` returns. -/
theorem WrapGet_nil_iff_fetch_and_do_nil_witness :
    (Get server200 0 "http://ok" testWorld).1 =
        .returned (some { StatusCode := 200, Body := 7 }, none) ∧
    (WrapGet server200 0 "http://ok" doFail testWorld).1 = .returned (some rerr) :=
  ⟨rfl, (WrapGet_nil_iff_fetch_and_do_nil server200 0 "http://ok" doFail testWorld).2.2.1
    { StatusCode := 200, Body := 7 } rerr rfl rfl⟩

/-- C6 fails for a body whose `Close` reports an error: the fetch and the
callback report none, `WrapGet` closes the body (the last action in its
log), that `Close` reports an error, and `WrapGet` returns `nil`. -/
theorem WrapGet_drops_close_error :
    (Get server200CloseErr 0 "http://ok" testWorld).1 =
        .returned (some { StatusCode := 200, Body := 7 }, none) ∧
    (doNothing { StatusCode := 200, Body := 7 }
        (Get server200CloseErr 0 "http://ok" testWorld).2.net).1 = .returned none ∧
    (((doNothing { StatusCode := 200, Body := 7 }
        (Get server200CloseErr 0 "http://ok" testWorld).2.net).2.bodies 7).Close).1 =
      some (.base 5 "close failed") ∧
    (WrapGet server200CloseErr 0 "http://ok" doNothing testWorld).2.log =
      [.clientGet 0 0 "http://ok", .doCall { StatusCode := 200, Body := 7 }, .doDone,
        .bodyClose 7] ∧
    (WrapGet server200CloseErr 0 "http://ok" doNothing testWorld).1 = .returned none :=
  ⟨rfl, rfl, rfl, rfl, rfl⟩

/-- C7: `Get` on a Getter with valid pointers makes one GET attempt through
the Getter's client (one `clientGet` event, whatever the attempt reports),
returns the response and error of that attempt unchanged, writes to no
store, and leaves the outside world, the bodies among it, exactly as the
attempt left it: a body the attempt handed over open is open, with all its
bytes unread, when `Get` returns. -/
theorem Get_single_attempt_unchanged (env : Env) (g : Nat) (url : String) (w : World)
    (gv : Getter) (cv : Client) (tv : Transport)
    (hg : w.getters[g]? = some gv) (hc : w.clients[gv.client]? = some cv)
    (ht : w.transports[cv.Transport]? = some tv) :
    (Get env g url w).1 = .returned (env.roundTrip tv url w.net).1 ∧
    (Get env g url w).2.log = w.log ++ [.clientGet gv.client cv.Transport url] ∧
    (Get env g url w).2.net = (env.roundTrip tv url w.net).2 ∧
    (Get env g url w).2.transports = w.transports ∧
    (Get env g url w).2.clients = w.clients ∧
    (Get env g url w).2.getters = w.getters ∧
    ∀ r, (env.roundTrip tv url w.net).1 = (some r, none) →
      ((env.roundTrip tv url w.net).2.bodies r.Body).closed = false →
      ((Get env g url w).2.net.bodies r.Body).closed = false ∧
      ((Get env g url w).2.net.bodies r.Body).closeCalls =
        ((env.roundTrip tv url w.net).2.bodies r.Body).closeCalls ∧
      ((Get env g url w).2.net.bodies r.Body).unread =
        ((env.roundTrip tv url w.net).2.bodies r.Body).unread := by
  have hG := Get_of_resolved env g url w gv cv tv hg hc ht
  refine ⟨by rw [hG], by rw [hG], by rw [hG], by rw [hG], by rw [hG], by rw [hG], ?_⟩
  intro r _ hopen
  rw [hG]
  exact ⟨hopen, rfl, rfl⟩

/-- C7 at the test `good response`: one attempt, status 200, and the body
open with all of `code200Response` unread. -/
theorem Get_single_attempt_unchanged_witness :
    (Get server200 0 "http://ok" testWorld).1 =
        .returned (some { StatusCode := 200, Body := 7 }, none) ∧
    (Get server200 0 "http://ok" testWorld).2.log = [.clientGet 0 0 "http://ok"] ∧
    ((Get server200 0 "http://ok" testWorld).2.net.bodies 7).closed = false ∧
    ((Get server200 0 "http://ok" testWorld).2.net.bodies 7).unread = code200Response :=
  have h := Get_single_attempt_unchanged server200 0 "http://ok" testWorld
    { timeout := 0, client := 0 } { Transport := 0 }
    { DialTimeout := 3000000000, TLSHandshakeTimeout := 3000000000
      ResponseHeaderTimeout := 3000000000, ExpectContinueTimeout := 3000000000 }
    rfl rfl rfl
  ⟨h.1, h.2.1, (h.2.2.2.2.2.2 { StatusCode := 200, Body := 7 } rfl rfl).1,
    (h.2.2.2.2.2.2 { StatusCode := 200, Body := 7 } rfl rfl).2.2⟩

/-- C8: `New` adds one transport and one client to the stores and returns a
Getter holding that client.  After any finite sequence of `Get` and
`WrapGet` calls on that Getter the three stores are what `New` left: no
transport or client was created, and the Getter, its client, the transport
and the timeout settings are unchanged.  The GET attempts logged by the
calls are one per call, in the order of the calls, each through the client
and the transport that `New` created. -/
theorem calls_share_transport_of_New (env : Env) (d : Duration) (w : World)
    (cs : List Call) :
    (New d w).2.transports = w.transports ++
      [{ DialTimeout := effectiveTimeout d
         TLSHandshakeTimeout := effectiveTimeout d
         ResponseHeaderTimeout := effectiveTimeout d
         ExpectContinueTimeout := effectiveTimeout d }] ∧
    (New d w).2.clients = w.clients ++ [{ Transport := w.transports.length }] ∧
    (New d w).2.getters[(New d w).1]? =
      some { timeout := 0, client := w.clients.length } ∧
    (runCalls env (New d w).1 cs (New d w).2).transports = (New d w).2.transports ∧
    (runCalls env (New d w).1 cs (New d w).2).clients = (New d w).2.clients ∧
    (runCalls env (New d w).1 cs (New d w).2).getters = (New d w).2.getters ∧
    (runCalls env (New d w).1 cs (New d w).2).transportOf (New d w).1 =
      (New d w).2.transportOf (New d w).1 ∧
    ∃ evs, (runCalls env (New d w).1 cs (New d w).2).log = (New d w).2.log ++ evs ∧
      evs.filter Event.isClientGet =
        cs.map (fun c => Event.clientGet w.clients.length w.transports.length c.url) := by
  obtain ⟨hg, hc, ht⟩ := New_resolved d w
  obtain ⟨h1, h2, h3, evs, hlog, hf⟩ :=
    runCalls_frame env (New d w).1 cs (New d w).2 _ _ _ hg hc ht
  refine ⟨?_, rfl, hg, h1, h2, h3, ?_, evs, hlog, hf⟩
  · simp [New, effectiveTimeout, defaultTimeout, mul_comm]
  · simp [World.transportOf, h1, h2, h3]

/-- C10, as the code has it: for every duration the `timeout` field of the
Getter that `New` returns is zero, while the transport behind that Getter
holds the effective duration in its four timeouts. -/
theorem New_timeout_field_zero (d : Duration) (w : World) :
    ((New d w).2.getters[(New d w).1]?).map Getter.timeout = some 0 ∧
    (New d w).2.transportOf (New d w).1 =
      some { DialTimeout := effectiveTimeout d
             TLSHandshakeTimeout := effectiveTimeout d
             ResponseHeaderTimeout := effectiveTimeout d
             ExpectContinueTimeout := effectiveTimeout d } := by
  refine ⟨?_, New_transportOf d w⟩
  rw [New_getter]
  rfl

/-- C10 fails at one second and at zero: the `timeout` field of the Getter
is zero, and the duration applied to the transport is one second, and three
seconds. -/
theorem New_timeout_field_not_set :
    ((New Second emptyWorld).2.getters[(New Second emptyWorld).1]?).map Getter.timeout =
      some 0 ∧
    ((New Second emptyWorld).2.transportOf (New Second emptyWorld).1).map
      Transport.ResponseHeaderTimeout = some 1000000000 ∧
    ((New 0 emptyWorld).2.getters[(New 0 emptyWorld).1]?).map Getter.timeout = some 0 ∧
    ((New 0 emptyWorld).2.transportOf (New 0 emptyWorld).1).map
      Transport.ResponseHeaderTimeout = some 3000000000 ∧
    (0 : Duration) ≠ 1000000000 ∧ (0 : Duration) ≠ 3000000000 := by
  refine ⟨rfl, rfl, rfl, rfl, ?_, ?_⟩ <;> decide

end myhttp
